import Mathlib

/-!
Verification of the KnoxProject recommendation engine (Backend/models.py).

The Python source is shallowly embedded: each service method becomes a Lean
function over explicit data (profiles, follow edges, likes, comments, cached
recommendation records).  Python floats are modelled as exact rationals,
Python sets as `Finset`, Django querysets as lists filtered from an explicit
environment, and timestamps as integers counted in seconds.
-/

namespace Knox

/-! ## Text feature extraction (Profile.get_interests_list / get_bio_keywords) -/

/-- Split a character list on every comma, mirroring the Python
`str.split(",")`: an empty input yields one empty field, and consecutive
commas yield empty fields. -/
def splitCommaAux : List Char → List Char → List (List Char)
  | [], cur => [cur.reverse]
  | c :: rest, cur =>
    if c = ',' then cur.reverse :: splitCommaAux rest []
    else splitCommaAux rest (c :: cur)

def splitComma (cs : List Char) : List (List Char) := splitCommaAux cs []

/-- Strip leading and trailing whitespace, mirroring Python `str.strip()`. -/
def trimChars (cs : List Char) : List Char :=
  ((cs.dropWhile Char.isWhitespace).reverse.dropWhile Char.isWhitespace).reverse

/-- `interest.strip().lower()` from `get_interests_list`. -/
def cleanToken (cs : List Char) : String :=
  String.mk ((trimChars cs).map Char.toLower)

/-- Embedding of `Profile.get_interests_list`: split the raw comma-separated
interest string, strip and lowercase each part, and keep the non-empty
results in order.  The Python method returns a list, not a set. -/
def get_interests_list (interests : String) : List String :=
  if interests = "" then []
  else (splitComma interests.data).filterMap (fun cs =>
    let cleaned := cleanToken cs
    if cleaned = "" then none else some cleaned)

/-- The stop-word set `common_words` from `Profile.get_bio_keywords`,
copied verbatim from the source. -/
def common_words : List String :=
  ["i", "am", "a", "an", "the", "is", "are", "was", "were", "be", "been", "being",
   "have", "has", "had", "do", "does", "did", "will", "would", "could", "should",
   "and", "or", "but", "in", "on", "at", "to", "for", "of", "with", "by",
   "love", "like", "enjoy", "who", "what", "where", "when", "why", "how"]

/-- A regex `\w` character: alphanumeric or underscore (ASCII model). -/
def isWordChar (c : Char) : Bool := c.isAlphanum || c = '_'

/-- Accumulator-based tokenizer equivalent to `re.findall(r"\b\w+\b", s)`:
the maximal runs of word characters, in order. -/
def findWordsAux : List Char → List Char → List String
  | [], cur => if cur.isEmpty then [] else [String.mk cur.reverse]
  | c :: rest, cur =>
    if isWordChar c then findWordsAux rest (c :: cur)
    else if cur.isEmpty then findWordsAux rest []
    else String.mk cur.reverse :: findWordsAux rest []

def findWords (cs : List Char) : List String := findWordsAux cs []

/-- Embedding of `Profile.get_bio_keywords`: lowercase the bio, tokenize into
maximal `\w` runs, and keep the tokens of length at least 3 that are not in
`common_words`, in order. -/
def get_bio_keywords (bio : String) : List String :=
  if bio = "" then []
  else (findWords (bio.data.map Char.toLower)).filter
    (fun w => decide (w.length > 2) && !(common_words.contains w))

/-- Modelled from the spec (section 4.1 `normalizeInterests`), without the
empty-input guard of the Python method: split on comma, trim whitespace,
lowercase, drop empty tokens. -/
def normalize_interests_model (raw : String) : List String :=
  (splitComma raw.data).filterMap (fun cs =>
    let cleaned := cleanToken cs
    if cleaned = "" then none else some cleaned)

/-- Modelled from the spec (section 4.1 `extractBioKeywords`), without the
empty-input guard of the Python method: lowercase, tokenize into maximal word
character runs, drop tokens of length at most 2, drop stop-words. -/
def extract_bio_keywords_model (raw : String) : List String :=
  (findWords (raw.data.map Char.toLower)).filter
    (fun w => decide (w.length > 2) && !(common_words.contains w))

/-! ## Data model -/

/-- The recommendation-relevant fields of the Django `Profile` model. -/
structure Profile where
  id : Nat
  interests : String
  bio : String
  show_in_recommendations : Bool
deriving DecidableEq, Repr

/-- A row of the Django `UserRecommendation` model; `created_at` and
`updated_at` are timestamps in seconds. -/
structure UserRecommendation where
  user : Nat
  recommended_user : Nat
  score : ℚ
  mutual_connections_count : Nat
  common_interests_count : Nat
  reason : String
  created_at : Int
  updated_at : Int
deriving DecidableEq, Repr

/-- The database state the service reads and writes: profile rows, follow
edges `(follower, following)`, like and comment rows `(user, post)`, and the
cached `UserRecommendation` rows. -/
structure Env where
  profiles : List Profile
  connections : List (Nat × Nat)
  likes : List (Nat × Nat)
  comments : List (Nat × Nat)
  recs : List UserRecommendation
deriving DecidableEq, Repr

/-! ## Interest similarity (RecommendationService.calculate_interest_similarity) -/

/-- The combined interest set of a profile: declared interests united with bio
keywords, as built inside `calculate_interest_similarity`. -/
def combined_interests (p : Profile) : Finset String :=
  (get_interests_list p.interests).toFinset ∪ (get_bio_keywords p.bio).toFinset

/-- Embedding of `RecommendationService.calculate_interest_similarity`:
returns the pair (number of common interests, Jaccard coefficient). -/
def calculate_interest_similarity (u t : Profile) : Nat × ℚ :=
  let user_all := combined_interests u
  let target_all := combined_interests t
  if user_all = ∅ ∨ target_all = ∅ then (0, 0)
  else
    let common := user_all ∩ target_all
    let union_all := user_all ∪ target_all
    let similarity_score : ℚ :=
      if union_all = ∅ then 0 else (common.card : ℚ) / (union_all.card : ℚ)
    (common.card, similarity_score)

/-! ## Graph similarity (get_mutual_connections / calculate_activity_similarity) -/

/-- The set of user ids a given user follows (`Connection` rows with this
follower). -/
def followee_ids (env : Env) (uid : Nat) : Finset Nat :=
  ((env.connections.filter (fun c => c.1 == uid)).map (fun c => c.2)).toFinset

/-- The intersection of the followee id sets of two users, as computed in
`get_mutual_connections`. -/
def mutual_following_ids (env : Env) (a b : Nat) : Finset Nat :=
  followee_ids env a ∩ followee_ids env b

/-- Embedding of `RecommendationService.get_mutual_connections`: the profile
rows whose id lies in both followee sets. -/
def get_mutual_connections (env : Env) (u t : Profile) : List Profile :=
  env.profiles.filter (fun p => decide (p.id ∈ mutual_following_ids env u.id t.id))

/-- The set of post ids a user has liked or commented on. -/
def interacted_post_ids (env : Env) (uid : Nat) : Finset Nat :=
  ((env.likes.filter (fun l => l.1 == uid)).map (fun l => l.2)).toFinset ∪
  ((env.comments.filter (fun c => c.1 == uid)).map (fun c => c.2)).toFinset

/-- Embedding of `RecommendationService.calculate_activity_similarity`: the
number of posts both users interacted with, 0 when either set is empty. -/
def calculate_activity_similarity (env : Env) (u t : Profile) : Nat :=
  let user_interactions := interacted_post_ids env u.id
  let target_interactions := interacted_post_ids env t.id
  if user_interactions = ∅ ∨ target_interactions = ∅ then 0
  else (user_interactions ∩ target_interactions).card

/-! ## Score composition (calculate_recommendation_score) -/

/-- The dictionary returned by `calculate_recommendation_score`. -/
structure ScoreData where
  total_score : ℚ
  mutual_connections_count : Nat
  common_interests_count : Nat
  activity_similarity : Nat
  mutual_connections : List Profile
deriving DecidableEq, Repr

/-- The Python builtin `min(a, b)` on two numbers, written out so that it
evaluates inside the kernel. -/
def ratMin (a b : ℚ) : ℚ := if a ≤ b then a else b

/-- Embedding of `RecommendationService.calculate_recommendation_score`:
weighted combination of the three normalized similarity signals. -/
def calculate_recommendation_score (env : Env) (u t : Profile) : ScoreData :=
  let mutual_connections := get_mutual_connections env u t
  let mutual_count := mutual_connections.length
  let interest_pair := calculate_interest_similarity u t
  let activity_val := calculate_activity_similarity env u t
  let mutual_weight : ℚ := 0.4
  let interest_weight : ℚ := 0.4
  let activity_weight : ℚ := 0.2
  let mutual_score : ℚ := ratMin ((mutual_count : ℚ) / 5) 1
  let activity_score : ℚ := ratMin ((activity_val : ℚ) / 10) 1
  { total_score := mutual_score * mutual_weight + interest_pair.2 * interest_weight +
      activity_score * activity_weight
    mutual_connections_count := mutual_count
    common_interests_count := interest_pair.1
    activity_similarity := activity_val
    mutual_connections := mutual_connections }

/-- Embedding of `RecommendationService.generate_recommendation_reason`:
clause list built by three guarded appends, then joined. -/
def generate_recommendation_reason (d : ScoreData) : String :=
  let reasons : List String := []
  let reasons := if d.mutual_connections_count > 0 then
      reasons ++ [toString d.mutual_connections_count ++ " mutual connection" ++
        (if d.mutual_connections_count ≠ 1 then "s" else "")]
    else reasons
  let reasons := if d.common_interests_count > 0 then
      reasons ++ [toString d.common_interests_count ++ " common interest" ++
        (if d.common_interests_count ≠ 1 then "s" else "")]
    else reasons
  let reasons := if d.activity_similarity > 0 then
      reasons ++ ["similar activity patterns"]
    else reasons
  if reasons.isEmpty then "Based on your network"
  else "Based on " ++ String.intercalate ", " reasons

/-! ## Candidate selection and ranking (generate_recommendations_for_user) -/

/-- The dictionary appended per kept candidate in
`generate_recommendations_for_user`. -/
structure RecCandidate where
  user : Profile
  recommended_user : Profile
  score : ℚ
  mutual_connections_count : Nat
  common_interests_count : Nat
  reason : String
  mutual_connections : List Profile
deriving DecidableEq, Repr

/-- Ids excluded from candidacy: every followee of the user plus the user
itself. -/
def current_connection_ids (env : Env) (u : Profile) : Finset Nat :=
  insert u.id (followee_ids env u.id)

/-- The candidate profiles: not already connected, not self, and opted in to
recommendations. -/
def eligible_candidates (env : Env) (u : Profile) : List Profile :=
  env.profiles.filter (fun p =>
    decide (p.id ∉ current_connection_ids env u) && p.show_in_recommendations)

/-- The recommendation dictionary built for one kept candidate. -/
def candidate_entry (env : Env) (u c : Profile) : RecCandidate :=
  let sd := calculate_recommendation_score env u c
  { user := u
    recommended_user := c
    score := sd.total_score
    mutual_connections_count := sd.mutual_connections_count
    common_interests_count := sd.common_interests_count
    reason := generate_recommendation_reason sd
    mutual_connections := sd.mutual_connections }

/-- The per-candidate loop of `generate_recommendations_for_user`: score each
eligible candidate and keep it exactly when `total_score >= min_score`. -/
def scored_candidates (env : Env) (u : Profile) (min_score : ℚ) : List RecCandidate :=
  (eligible_candidates env u).filterMap (fun c =>
    if min_score ≤ (calculate_recommendation_score env u c).total_score then
      some (candidate_entry env u c)
    else none)

/-- Stable insertion: place `x` before the first element that does not sort
strictly before it.  With `before` as a strict priority this reproduces a
stable sort such as the Python `list.sort`. -/
def insBefore {α : Type} (before : α → α → Bool) (x : α) : List α → List α
  | [] => [x]
  | y :: ys => if before y x then y :: insBefore before x ys else x :: y :: ys

/-- Stable sort by the strict priority `before` (insertion sort). -/
def sortListBy {α : Type} (before : α → α → Bool) : List α → List α
  | [] => []
  | x :: xs => insBefore before x (sortListBy before xs)

/-- Strict priority used by `recommendations.sort(key=score, reverse=True)`:
higher score first, ties keep the original order. -/
def candBefore (a b : RecCandidate) : Bool := decide (b.score < a.score)

/-- Embedding of `RecommendationService.generate_recommendations_for_user`:
score the eligible candidates, keep those above threshold, sort by score
descending (stable), and truncate to `limit`. -/
def generate_recommendations_for_user (env : Env) (u : Profile) (limit : Nat)
    (min_score : ℚ) : List RecCandidate :=
  (sortListBy candBefore (scored_candidates env u min_score)).take limit

/-! ## Cache manager (cache_recommendations / get_recommendations_for_user) -/

/-- The cached rows belonging to one user. -/
def recordsFor (env : Env) (uid : Nat) : List UserRecommendation :=
  env.recs.filter (fun r => r.user == uid)

/-- Strict priority of the model ordering `["-score", "-created_at"]`. -/
def recBefore (a b : UserRecommendation) : Bool :=
  decide (b.score < a.score) ||
  (decide (a.score = b.score) && decide (b.created_at < a.created_at))

/-- The queryset `UserRecommendation.objects.filter(user=...)[:limit]` with
the model Meta ordering applied. -/
def cached_list (env : Env) (uid : Nat) (limit : Nat) : List UserRecommendation :=
  (sortListBy recBefore (recordsFor env uid)).take limit

/-- Embedding of `RecommendationService.cache_recommendations`: delete every
cached row of this user, then bulk-insert one row per recommendation, with
both timestamps set to the current time. -/
def cache_recommendations (env : Env) (u : Profile) (recs : List RecCandidate)
    (now : Int) : Env :=
  { env with recs :=
      env.recs.filter (fun r => !(r.user == u.id)) ++
      recs.map (fun rc =>
        { user := rc.user.id
          recommended_user := rc.recommended_user.id
          score := rc.score
          mutual_connections_count := rc.mutual_connections_count
          common_interests_count := rc.common_interests_count
          reason := rc.reason
          created_at := now
          updated_at := now }) }

/-- Embedding of `RecommendationService._refresh_recommendations`: generate
with the default threshold 0.1, replace the cache, and re-read the rows. -/
def refresh_recommendations (env : Env) (u : Profile) (limit : Nat) (now : Int) :
    Env × List UserRecommendation :=
  let recs := generate_recommendations_for_user env u limit (0.1 : ℚ)
  let env2 := cache_recommendations env u recs now
  (env2, cached_list env2 u.id limit)

/-- The staleness test of `get_recommendations_for_user`: the first cached
row is older than 7 days (604800 seconds). -/
def cacheIsOld (now : Int) (cached : List UserRecommendation) : Bool :=
  match cached.head? with
  | some r => decide (now - r.updated_at > 604800)
  | none => false

/-- Embedding of `RecommendationService.get_recommendations_for_user`:
returns the possibly-updated environment together with the returned rows. -/
def get_recommendations_for_user (env : Env) (u : Profile) (limit : Nat)
    (use_cache refresh_if_old : Bool) (now : Int) : Env × List UserRecommendation :=
  if use_cache then
    let cached := cached_list env u.id limit
    if cached.isEmpty then refresh_recommendations env u limit now
    else if refresh_if_old && cacheIsOld now cached then
      refresh_recommendations env u limit now
    else (env, cached)
  else refresh_recommendations env u limit now

/-! ## Spec-side definitions used for refinement comparisons -/

/-- The mutual-connections clause as worded in the spec: pluralized
"N mutual connection" / "N mutual connections". -/
def mutual_clause (n : Nat) : String :=
  if n = 1 then toString n ++ " mutual connection"
  else toString n ++ " mutual connections"

/-- The common-interests clause as worded in the spec. -/
def interest_clause (n : Nat) : String :=
  if n = 1 then toString n ++ " common interest"
  else toString n ++ " common interests"

/-- The reason string as worded in the spec (section 4.4): a comma-joined
clause list in the fixed order, prefixed with "Based on ", or the literal
"Based on your network" when no clause qualifies. -/
def reason_from_counts (mutualCount commonCount activityOverlap : Nat) : String :=
  let clauses :=
    (if mutualCount > 0 then [mutual_clause mutualCount] else []) ++
    (if commonCount > 0 then [interest_clause commonCount] else []) ++
    (if activityOverlap > 0 then ["similar activity patterns"] else [])
  if clauses = [] then "Based on your network"
  else "Based on " ++ String.intercalate ", " clauses

/-! ## Concrete databases used for witnesses and counterexamples -/

/-- The scenario database of the spec: user A (id 0) follows X (id 2) and
Y (id 3); user B (id 1) follows X and Z (id 4); nobody declares interests. -/
def pAs : Profile := ⟨0, "", "", true⟩

def pBs : Profile := ⟨1, "", "", true⟩

def envS1 : Env :=
  ⟨[pAs, pBs, ⟨2, "", "", true⟩, ⟨3, "", "", true⟩, ⟨4, "", "", true⟩],
   [(0, 2), (0, 3), (1, 2), (1, 4)], [], [], []⟩

/-- A database with a self-follow edge: user A (id 0) follows itself and
user B (id 1) follows A. -/
def pA2 : Profile := ⟨0, "", "", true⟩

def pB2 : Profile := ⟨1, "", "", true⟩

def envC2 : Env := ⟨[pA2, pB2], [(0, 0), (1, 0)], [], [], []⟩

/-- A two-user database with no edges and no interests: the single candidate
scores exactly 0. -/
def uW7 : Profile := ⟨0, "", "", true⟩

def cW7 : Profile := ⟨1, "", "", true⟩

def envW7 : Env := ⟨[uW7, cW7], [], [], [], []⟩

/-- A database with a single user and one cached record that is far past the
staleness threshold. -/
def u9 : Profile := ⟨0, "", "", true⟩

def env9 : Env := ⟨[u9], [], [], [], [⟨0, 1, 0.5, 1, 0, "Based on 1 mutual connection", 0, 0⟩]⟩

/-- A database where the cache holds one fresh record for the user while two
eligible candidates would score above the default threshold. -/
def uT : Profile := ⟨0, "travel", "", true⟩

def cT1 : Profile := ⟨1, "travel", "", true⟩

def cT2 : Profile := ⟨2, "travel", "", true⟩

def envT : Env :=
  ⟨[uT, cT1, cT2], [], [], [],
   [⟨0, 1, 0.4, 0, 1, "Based on 1 common interest", 1000, 1000⟩]⟩

/-! ## Helper lemmas -/

theorem strAppendEmpty (s : String) : s ++ "" = s := by
  cases s with
  | mk d =>
    show String.mk (d ++ []) = String.mk d
    rw [List.append_nil]

theorem strAppendAssoc (a b c : String) : a ++ b ++ c = a ++ (b ++ c) := by
  cases a with | mk da => cases b with | mk db => cases c with | mk dc =>
    show String.mk (da ++ db ++ dc) = String.mk (da ++ (db ++ dc))
    rw [List.append_assoc]

theorem ratMin_eq_min (a b : ℚ) : ratMin a b = min a b := by
  rw [ratMin, min_def]

theorem ratMin_eq_left {a b : ℚ} (h : a ≤ b) : ratMin a b = a := if_pos h

theorem mutual_clause_code (n : Nat) :
    (toString n ++ " mutual connection" ++ if n = 1 then "" else "s") = mutual_clause n := by
  by_cases h : n = 1
  · rw [if_pos h, strAppendEmpty, mutual_clause, if_pos h]
  · rw [if_neg h, strAppendAssoc,
      show (" mutual connection" ++ "s" : String) = " mutual connections" from by decide,
      mutual_clause, if_neg h]

theorem interest_clause_code (n : Nat) :
    (toString n ++ " common interest" ++ if n = 1 then "" else "s") = interest_clause n := by
  by_cases h : n = 1
  · rw [if_pos h, strAppendEmpty, interest_clause, if_pos h]
  · rw [if_neg h, strAppendAssoc,
      show (" common interest" ++ "s" : String) = " common interests" from by decide,
      interest_clause, if_neg h]

theorem mem_insBefore {α : Type} (bf : α → α → Bool) (x a : α) (l : List α) :
    x ∈ insBefore bf a l ↔ x = a ∨ x ∈ l := by
  induction l with
  | nil => simp [insBefore]
  | cons y ys ih =>
    simp only [insBefore]
    split
    · simp only [List.mem_cons, ih]
      tauto
    · simp [List.mem_cons]

theorem mem_sortListBy {α : Type} (bf : α → α → Bool) (x : α) (l : List α) :
    x ∈ sortListBy bf l ↔ x ∈ l := by
  induction l with
  | nil => simp [sortListBy]
  | cons y ys ih => simp [sortListBy, mem_insBefore, ih]

theorem cached_list_subset (env : Env) (uid limit : Nat) :
    ∀ r ∈ cached_list env uid limit, r ∈ recordsFor env uid := by
  intro r hr
  exact (mem_sortListBy recBefore r _).mp (List.take_subset _ _ hr)

/-! ## Claim theorems -/

/-- C3 counterexample: on the bio from the claim the code does not return
exactly the keyword set listed by the claim — the token "loves" is kept,
because only "love" is in the stop-word list. -/
theorem c3_bio_keywords_counterexample :
    (get_bio_keywords "I am a photographer who loves travel and food").toFinset ≠
      ({"photographer", "travel", "food"} : Finset String) := by decide

/-- C3 (amended): `get_bio_keywords` lowercases the bio, tokenizes it into
maximal word-character runs, drops every token of length at most 2 and every
token in the fixed stop-word list; on the bio from the claim it returns the
keywords photographer, loves, travel and food, with "loves" kept. -/
theorem c3_bio_keywords_amended (raw : String) :
    get_bio_keywords raw = extract_bio_keywords_model raw ∧
    (get_bio_keywords "I am a photographer who loves travel and food").toFinset =
      ({"photographer", "loves", "travel", "food"} : Finset String) := by
  constructor
  · by_cases h : raw = ""
    · subst h; decide
    · simp [get_bio_keywords, extract_bio_keywords_model, h]
  · decide

/-- C4 counterexample: `get_interests_list` returns a list, not a set, and a
duplicated interest does not collapse to one token. -/
theorem c4_interests_counterexample : ¬ (get_interests_list "travel, travel").Nodup := by
  decide

/-- C4 (amended): `get_interests_list` splits on commas, trims, lowercases and
drops empty tokens, returning a list that preserves input order and keeps
duplicates; on the input from the claim it yields the list
["photography", "travel"], whose set is the claimed one. -/
theorem c4_interests_amended (raw : String) :
    get_interests_list raw = normalize_interests_model raw ∧
    get_interests_list "Photography, Travel, " = ["photography", "travel"] ∧
    (get_interests_list "Photography, Travel, ").toFinset =
      ({"photography", "travel"} : Finset String) := by
  refine ⟨?_, by decide, by decide⟩
  by_cases h : raw = ""
  · subst h; decide
  · simp [get_interests_list, normalize_interests_model, h]

/-- C5: when either combined interest set is empty the similarity is the
defined value (0, 0); otherwise it is the pair of intersection size and
Jaccard coefficient over the two combined sets. -/
theorem c5_interest_similarity_cases (u t : Profile) :
    (combined_interests u = ∅ ∨ combined_interests t = ∅ →
      calculate_interest_similarity u t = (0, 0)) ∧
    (combined_interests u ≠ ∅ → combined_interests t ≠ ∅ →
      calculate_interest_similarity u t =
        ((combined_interests u ∩ combined_interests t).card,
         ((combined_interests u ∩ combined_interests t).card : ℚ) /
           ((combined_interests u ∪ combined_interests t).card : ℚ))) := by
  constructor
  · intro h
    simp [calculate_interest_similarity, h]
  · intro h1 h2
    have hor : ¬ (combined_interests u = ∅ ∨ combined_interests t = ∅) := by tauto
    have hun : ¬ (combined_interests u ∪ combined_interests t = ∅) := by
      rw [Finset.union_eq_empty]
      tauto
    simp [calculate_interest_similarity, hor, hun]

/-- C5 witness at concrete profiles: one empty-profile pair hits the defined
edge case; one non-empty pair hits the Jaccard branch. -/
theorem c5_interest_similarity_witness :
    calculate_interest_similarity ⟨0, "", "", true⟩ ⟨1, "travel, food", "", true⟩ = (0, 0) ∧
    calculate_interest_similarity ⟨2, "travel, food", "", true⟩ ⟨3, "travel", "", true⟩ =
      ((combined_interests ⟨2, "travel, food", "", true⟩ ∩
          combined_interests ⟨3, "travel", "", true⟩).card,
       ((combined_interests ⟨2, "travel, food", "", true⟩ ∩
          combined_interests ⟨3, "travel", "", true⟩).card : ℚ) /
         ((combined_interests ⟨2, "travel, food", "", true⟩ ∪
            combined_interests ⟨3, "travel", "", true⟩).card : ℚ)) :=
  ⟨(c5_interest_similarity_cases _ _).1 (Or.inl (by decide)),
   (c5_interest_similarity_cases _ _).2 (by decide) (by decide)⟩

/-- C6: interest similarity and mutual connections are symmetric in the two
users. -/
theorem c6_symmetry (env : Env) (a b : Profile) :
    calculate_interest_similarity a b = calculate_interest_similarity b a ∧
    get_mutual_connections env a b = get_mutual_connections env b a := by
  constructor
  · have hi := Finset.inter_comm (combined_interests a) (combined_interests b)
    have hu := Finset.union_comm (combined_interests a) (combined_interests b)
    simp only [calculate_interest_similarity]
    rw [hi, hu]
    exact if_congr or_comm rfl rfl
  · have hm : mutual_following_ids env a.id b.id = mutual_following_ids env b.id a.id :=
      Finset.inter_comm _ _
    simp [get_mutual_connections, hm]

/-- C1: the total score is the weighted combination
0.4 * min(mutualCount / 5, 1) + 0.4 * jaccard + 0.2 * min(activityOverlap / 10, 1),
and a single mutual connection makes the mutual factor contribute exactly
0.08. -/
theorem c1_total_score_formula (env : Env) (a b : Profile) :
    (calculate_recommendation_score env a b).total_score =
      0.4 * min (((get_mutual_connections env a b).length : ℚ) / 5) 1 +
      0.4 * (calculate_interest_similarity a b).2 +
      0.2 * min ((calculate_activity_similarity env a b : ℚ) / 10) 1 ∧
    ((get_mutual_connections env a b).length = 1 →
      0.4 * min (((get_mutual_connections env a b).length : ℚ) / 5) 1 = 0.08) := by
  constructor
  · simp only [calculate_recommendation_score, ratMin_eq_min]
    ring
  · intro h
    rw [h]
    have h1 : ((1 : Nat) : ℚ) = 1 := by norm_num
    rw [h1, min_eq_left (by norm_num : (1 : ℚ) / 5 ≤ 1)]
    norm_num

/-- C1 witness: in the scenario database A and B have exactly one mutual
connection, and the mutual factor contributes 0.08. -/
theorem c1_total_score_witness :
    (calculate_recommendation_score envS1 pAs pBs).total_score =
      0.4 * min (((get_mutual_connections envS1 pAs pBs).length : ℚ) / 5) 1 +
      0.4 * (calculate_interest_similarity pAs pBs).2 +
      0.2 * min ((calculate_activity_similarity envS1 pAs pBs : ℚ) / 10) 1 ∧
    0.4 * min (((get_mutual_connections envS1 pAs pBs).length : ℚ) / 5) 1 = 0.08 :=
  ⟨(c1_total_score_formula envS1 pAs pBs).1,
   (c1_total_score_formula envS1 pAs pBs).2 (by decide)⟩

/-- C2 counterexample: with a self-follow edge on A and B following A, the
mutual-connections result contains user A itself, so the result is not free
of the two input users. -/
theorem c2_self_follow_counterexample :
    pA2 ∈ get_mutual_connections envC2 pA2 pB2 := by decide

/-- C2 (amended): the result of `get_mutual_connections`, viewed as the set
of ids of the returned profiles, equals the intersection of the followee id
sets of the two users (the computation is total, so it never fails on
self-follow edges); it can however contain a or b themselves when self-follow
edges exist.  The hypothesis states that every followed id has a profile row,
which the database foreign keys guarantee. -/
theorem c2_mutual_connections_amended (env : Env) (a b : Profile)
    (hcov : ∀ c ∈ env.connections, c.2 ∈ env.profiles.map Profile.id) :
    ((get_mutual_connections env a b).map Profile.id).toFinset =
      mutual_following_ids env a.id b.id := by
  ext x
  simp only [List.mem_toFinset, List.mem_map, get_mutual_connections, List.mem_filter,
    decide_eq_true_iff]
  constructor
  · rintro ⟨p, ⟨_, hm⟩, rfl⟩
    exact hm
  · intro hx
    have hx2 : x ∈ followee_ids env a.id ∩ followee_ids env b.id := hx
    have hxf : x ∈ followee_ids env a.id := (Finset.mem_inter.mp hx2).1
    simp only [followee_ids, List.mem_toFinset, List.mem_map, List.mem_filter] at hxf
    obtain ⟨c, ⟨hc, _⟩, hc2⟩ := hxf
    have hprof := hcov c hc
    rw [hc2] at hprof
    simp only [List.mem_map] at hprof
    obtain ⟨p, hp, hpid⟩ := hprof
    exact ⟨p, ⟨hp, by rw [hpid]; exact hx⟩, hpid⟩

/-- C2 witness: the amended statement evaluated on the self-follow database. -/
theorem c2_mutual_connections_witness :
    ((get_mutual_connections envC2 pA2 pB2).map Profile.id).toFinset =
      mutual_following_ids envC2 pA2.id pB2.id :=
  c2_mutual_connections_amended envC2 pA2 pB2 (by decide)

/-- C7: every returned recommendation has score at least `min_score`, and the
boundary is inclusive: an eligible candidate whose total score equals
`min_score` passes the threshold filter. -/
theorem c7_threshold (env : Env) (u : Profile) (limit : Nat) (min_score : ℚ) :
    (∀ r ∈ generate_recommendations_for_user env u limit min_score, min_score ≤ r.score) ∧
    (∀ c ∈ eligible_candidates env u,
      (calculate_recommendation_score env u c).total_score = min_score →
      candidate_entry env u c ∈ scored_candidates env u min_score) := by
  constructor
  · intro r hr
    have h1 : r ∈ sortListBy candBefore (scored_candidates env u min_score) :=
      List.take_subset _ _ hr
    have h2 : r ∈ scored_candidates env u min_score := (mem_sortListBy _ _ _).mp h1
    simp only [scored_candidates, List.mem_filterMap] at h2
    obtain ⟨c, _, hsome⟩ := h2
    by_cases hcond : min_score ≤ (calculate_recommendation_score env u c).total_score
    · rw [if_pos hcond] at hsome
      obtain rfl := Option.some.inj hsome
      simpa [candidate_entry] using hcond
    · rw [if_neg hcond] at hsome
      exact absurd hsome (by simp)
  · intro c hc htot
    simp only [scored_candidates, List.mem_filterMap]
    refine ⟨c, hc, ?_⟩
    rw [htot, if_pos le_rfl]

/-- C7 witness: at threshold 0 the candidate scoring exactly 0 is returned
and kept by the filter. -/
theorem c7_threshold_witness :
    (0 : ℚ) ≤ (candidate_entry envW7 uW7 cW7).score ∧
    candidate_entry envW7 uW7 cW7 ∈ scored_candidates envW7 uW7 0 := by
  have hm : get_mutual_connections envW7 uW7 cW7 = [] := by decide
  have hs : calculate_interest_similarity uW7 cW7 = (0, 0) := by decide
  have ha : calculate_activity_similarity envW7 uW7 cW7 = 0 := by decide
  have htot : (calculate_recommendation_score envW7 uW7 cW7).total_score = 0 := by
    simp only [calculate_recommendation_score, hm, hs, ha, List.length_nil, Nat.cast_zero,
      zero_div]
    rw [ratMin_eq_left (by norm_num : (0 : ℚ) ≤ 1)]
    norm_num
  have helig : eligible_candidates envW7 uW7 = [cW7] := by decide
  have hsc : scored_candidates envW7 uW7 0 = [candidate_entry envW7 uW7 cW7] := by
    simp only [scored_candidates, helig, List.filterMap_cons, List.filterMap_nil, htot]
    norm_num
  have hgen : generate_recommendations_for_user envW7 uW7 10 0 =
      [candidate_entry envW7 uW7 cW7] := by
    simp [generate_recommendations_for_user, hsc, sortListBy, insBefore]
  exact ⟨(c7_threshold envW7 uW7 10 0).1 (candidate_entry envW7 uW7 cW7)
      (by rw [hgen]; exact List.mem_singleton.mpr rfl),
    (c7_threshold envW7 uW7 10 0).2 cW7 (by decide) htot⟩

/-- C8: the reason string equals the spec wording (fixed clause order, fixed
pluralization, "Based on " prefix, "Based on your network" fallback), and the
scenario breakdown 1 mutual / 3 interests / 0 activity yields exactly the
claimed string. -/
theorem c8_reason_format (d : ScoreData) :
    generate_recommendation_reason d =
      reason_from_counts d.mutual_connections_count d.common_interests_count
        d.activity_similarity ∧
    generate_recommendation_reason
      { total_score := 0, mutual_connections_count := 1, common_interests_count := 3,
        activity_similarity := 0, mutual_connections := [] } =
      "Based on 1 mutual connection, 3 common interests" := by
  refine ⟨?_, by decide⟩
  obtain ⟨ts, mc, ci, act, mcl⟩ := d
  simp only [generate_recommendation_reason, reason_from_counts]
  by_cases h1 : mc > 0 <;> by_cases h2 : ci > 0 <;> by_cases h3 : act > 0 <;>
    simp [h1, h2, h3, mutual_clause_code, interest_clause_code]

/-- C9: with `use_cache` on and every cached record of the user older than
the 7-day threshold, the call recomputes and re-caches exactly when
`refresh_if_old` is true, and returns the stale cached records untouched
(environment unchanged) when `refresh_if_old` is false. -/
theorem c9_stale_cache (env : Env) (u : Profile) (limit : Nat) (now : Int)
    (h1 : cached_list env u.id limit ≠ [])
    (h2 : ∀ r ∈ recordsFor env u.id, now - r.updated_at > 604800) :
    get_recommendations_for_user env u limit true true now =
      refresh_recommendations env u limit now ∧
    get_recommendations_for_user env u limit true false now =
      (env, cached_list env u.id limit) := by
  have hne : (cached_list env u.id limit).isEmpty = false := by
    cases hcl : cached_list env u.id limit with
    | nil => exact absurd hcl h1
    | cons r rest => rfl
  have hold : cacheIsOld now (cached_list env u.id limit) = true := by
    cases hcl : cached_list env u.id limit with
    | nil => exact absurd hcl h1
    | cons r rest =>
      have hr : r ∈ recordsFor env u.id :=
        cached_list_subset env u.id limit r (hcl ▸ List.mem_cons_self r rest)
      simp only [cacheIsOld, List.head?]
      exact decide_eq_true (h2 r hr)
  constructor
  · simp [get_recommendations_for_user, hne, hold]
  · simp [get_recommendations_for_user, hne]

/-- C9 witness: on the stale single-record database the call refreshes when
`refresh_if_old` is true and returns the stale record when it is false. -/
theorem c9_stale_cache_witness :
    get_recommendations_for_user env9 u9 10 true true 1000000 =
      refresh_recommendations env9 u9 10 1000000 ∧
    get_recommendations_for_user env9 u9 10 true false 1000000 =
      (env9, cached_list env9 u9.id 10) :=
  c9_stale_cache env9 u9 10 1000000 (by decide) (by decide)

/-- C10: with `use_cache` on, any non-empty cached set that is not treated as
stale (fresh, or `refresh_if_old` false) is returned truncated to `limit`
with the environment unchanged — no fresh generation tops the result up; on
the concrete database `envT` the call returns 1 < 5 records although a fresh
computation would yield 2. -/
theorem c10_cache_hit (env : Env) (u : Profile) (limit : Nat) (rio : Bool) (now : Int)
    (h1 : cached_list env u.id limit ≠ [])
    (h2 : rio = false ∨ cacheIsOld now (cached_list env u.id limit) = false) :
    get_recommendations_for_user env u limit true rio now =
      (env, cached_list env u.id limit) ∧
    (get_recommendations_for_user envT uT 5 true true 1000).2.length = 1 ∧
    (get_recommendations_for_user envT uT 5 true true 1000).2.length < 5 ∧
    (generate_recommendations_for_user envT uT 5 (0.1 : ℚ)).length = 2 := by
  have hlen1 : (get_recommendations_for_user envT uT 5 true true 1000).2.length = 1 := by
    decide
  have hm1 : get_mutual_connections envT uT cT1 = [] := by decide
  have hm2 : get_mutual_connections envT uT cT2 = [] := by decide
  have ha1 : calculate_activity_similarity envT uT cT1 = 0 := by decide
  have ha2 : calculate_activity_similarity envT uT cT2 = 0 := by decide
  have hcu : combined_interests uT = {"travel"} := by decide
  have hc1 : combined_interests cT1 = {"travel"} := by decide
  have hc2 : combined_interests cT2 = {"travel"} := by decide
  have hs1 : calculate_interest_similarity uT cT1 = (1, 1) := by
    simp [calculate_interest_similarity, hcu, hc1]
  have hs2 : calculate_interest_similarity uT cT2 = (1, 1) := by
    simp [calculate_interest_similarity, hcu, hc2]
  have htot1 : (calculate_recommendation_score envT uT cT1).total_score = 0.4 := by
    simp only [calculate_recommendation_score, hm1, hs1, ha1, List.length_nil, Nat.cast_zero,
      zero_div]
    rw [ratMin_eq_left (by norm_num : (0 : ℚ) ≤ 1)]
    norm_num
  have htot2 : (calculate_recommendation_score envT uT cT2).total_score = 0.4 := by
    simp only [calculate_recommendation_score, hm2, hs2, ha2, List.length_nil, Nat.cast_zero,
      zero_div]
    rw [ratMin_eq_left (by norm_num : (0 : ℚ) ≤ 1)]
    norm_num
  have helig : eligible_candidates envT uT = [cT1, cT2] := by decide
  have hsc : scored_candidates envT uT (0.1 : ℚ) =
      [candidate_entry envT uT cT1, candidate_entry envT uT cT2] := by
    simp only [scored_candidates, helig, List.filterMap_cons, List.filterMap_nil, htot1, htot2]
    norm_num
  have hscore1 : (candidate_entry envT uT cT1).score =
      (calculate_recommendation_score envT uT cT1).total_score := rfl
  have hscore2 : (candidate_entry envT uT cT2).score =
      (calculate_recommendation_score envT uT cT2).total_score := rfl
  have hgen : generate_recommendations_for_user envT uT 5 (0.1 : ℚ) =
      [candidate_entry envT uT cT1, candidate_entry envT uT cT2] := by
    simp only [generate_recommendations_for_user, hsc, sortListBy, insBefore, candBefore,
      hscore1, hscore2, htot1, htot2]
    norm_num
  have hne : (cached_list env u.id limit).isEmpty = false := by
    cases hcl : cached_list env u.id limit with
    | nil => exact absurd hcl h1
    | cons r rest => rfl
  refine ⟨?_, hlen1, by rw [hlen1]; norm_num, by rw [hgen]; rfl⟩
  rcases h2 with h | h
  · subst h
    simp [get_recommendations_for_user, hne]
  · simp [get_recommendations_for_user, hne, h]

/-- C10 witness: the cache-hit behaviour evaluated on the concrete database
`envT` with a fresh single-record cache. -/
theorem c10_cache_hit_witness :
    get_recommendations_for_user envT uT 5 true true 1000 =
      (envT, cached_list envT uT.id 5) ∧
    (get_recommendations_for_user envT uT 5 true true 1000).2.length = 1 ∧
    (get_recommendations_for_user envT uT 5 true true 1000).2.length < 5 ∧
    (generate_recommendations_for_user envT uT 5 (0.1 : ℚ)).length = 2 :=
  c10_cache_hit envT uT 5 true 1000 (by decide) (Or.inr (by decide))

end Knox
